import Mathlib

/-!
Shallow embedding of the request-handling core of `mcp-server-gemini-pro`:
JSON-RPC envelope validation, the sliding-window rate limiter, the retry /
backoff wrapper, string sanitisation, and the stdio dispatch pipeline with
its tool handlers (`generate_text`, `list_models`, ...).  Numbers are
modelled as `Rat` (JS numbers at the values the program uses are exact),
times as natural-number milliseconds, and the remote Gemini API as an
explicit environment function.
-/

namespace GeminiMCP

/-- JSON values, as produced by `JSON.parse` on an input line.  Objects keep
their fields as an association list (first binding wins on lookup). -/
inductive Json where
  | null : Json
  | bool (b : Bool) : Json
  | num (q : Rat) : Json
  | str (s : String) : Json
  | arr (elems : List Json) : Json
  | obj (fields : List (String × Json)) : Json

/-- Field lookup `v.f` on a parsed JSON value: `some` is a present field,
`none` is JavaScript `undefined` (also for non-object receivers). -/
def jget (v : Json) (key : String) : Option Json :=
  match v with
  | .obj fields => lookupField fields key
  | _ => none
where
  lookupField : List (String × Json) → String → Option Json
    | [], _ => none
    | (k, x) :: rest, key => if k = key then some x else lookupField rest key

/-- JavaScript truthiness of a JSON value (`NaN` does not arise here). -/
def truthy : Json → Bool
  | .null => false
  | .bool b => b
  | .num q => q ≠ 0
  | .str s => s ≠ ""
  | .arr _ => true
  | .obj _ => true

/-- `!request || typeof request !== 'object'` is false exactly on (truthy)
objects and arrays. -/
def isObjectLike : Json → Bool
  | .obj _ => true
  | .arr _ => true
  | _ => false

/-- An error value as carried by the `MCPError` class hierarchy: a JSON-RPC
error code plus a message.  `ValidationError` uses -32602, `RateLimitError`
-32002, plain `MCPError` / `GeminiAPIError` -32603. -/
structure MCPErr where
  code : Int
  message : String
deriving Repr, DecidableEq

def validationError (message : String) : MCPErr := ⟨-32602, message⟩

def rateLimitError (message : String) : MCPErr := ⟨-32002, message⟩

/-- `Validator.validateMCPRequest`: throws unless the message is a (truthy)
object, `jsonrpc === "2.0"`, `method` is a string, and `id` is neither
`undefined` nor `null`. -/
def validateMCPRequest (request : Json) : Except MCPErr Unit :=
  if !isObjectLike request then
    .error (validationError "Request must be an object")
  else
    match jget request "jsonrpc" with
    | some (.str "2.0") =>
        (match jget request "method" with
         | some (.str _) =>
             (match jget request "id" with
              | none => .error (validationError "Request ID is required")
              | some .null => .error (validationError "Request ID is required")
              | some _ => .ok ())
         | _ => .error (validationError "Method must be a string"))
    | _ => .error (validationError "Invalid JSON-RPC version")

/-! ## RateLimiter (`src/utils/rateLimiter.ts`) -/

/-- One entry of the rate limiter's map. -/
structure RateLimitEntry where
  count : Nat
  resetTime : Nat
deriving Repr, DecidableEq

/-- The rate limiter's `requests` map, keyed by identifier. -/
def RLState := String → Option RateLimitEntry

/-- Map update (`this.requests.set identifier entry`). -/
def RLState.set (s : RLState) (key : String) (e : RateLimitEntry) : RLState :=
  fun k => if k = key then some e else s k

/-- `RateLimiter.checkLimit`: passes when disabled; first request for a key
creates `{count 1, resetTime now+windowMs}`; an expired window resets to
count 1; a full window throws a `RateLimitError` carrying the seconds until
reset rounded up; otherwise the count is incremented. -/
def checkLimit (enabled : Bool) (maxRequests windowMs now : Nat) (key : String)
    (s : RLState) : Except MCPErr RLState :=
  if !enabled then .ok s
  else
    match s key with
    | none => .ok (s.set key ⟨1, now + windowMs⟩)
    | some entry =>
        if entry.resetTime ≤ now then
          .ok (s.set key ⟨1, now + windowMs⟩)
        else if maxRequests ≤ entry.count then
          .error (rateLimitError
            ("Rate limit exceeded. Try again in " ++
              toString ((entry.resetTime - now + 999) / 1000) ++ " seconds."))
        else
          .ok (s.set key { entry with count := entry.count + 1 })

/-- Run a sequence of `checkLimit` calls (given their times) for one key,
stopping at the first rejection. -/
def runCheckLimits (enabled : Bool) (maxRequests windowMs : Nat) (key : String)
    (s : RLState) : List Nat → Except MCPErr RLState
  | [] => .ok s
  | t :: ts => do
      let s' ← checkLimit enabled maxRequests windowMs t key s
      runCheckLimits enabled maxRequests windowMs key s' ts

/-! ## Errors and retry (`src/utils/errors.ts`) -/

/-- A thrown JavaScript error as far as the retry logic inspects it:
a `GeminiAPIError` carries its `originalError`'s optional `status` string and
optional numeric `code`; every other error class is non-retryable. -/
inductive JSError where
  | gemini (message : String) (status : Option String) (code : Option Int) : JSError
  | validation (message : String) : JSError
  | other (message : String) : JSError
deriving Repr, DecidableEq

/-- `error.message` of a thrown error (all modelled errors are `Error`s). -/
def JSError.message : JSError → String
  | .gemini m _ _ => m
  | .validation m => m
  | .other m => m

/-- `ErrorHandler.isRetryableError`: `GeminiAPIError` with original status
`UNAVAILABLE` / `RESOURCE_EXHAUSTED` / `INTERNAL` or original code 503 / 429. -/
def isRetryableError : JSError → Bool
  | .gemini _ status code =>
      status = some "UNAVAILABLE" || status = some "RESOURCE_EXHAUSTED" ||
      status = some "INTERNAL" || code = some 503 || code = some 429
  | _ => false

/-- `ErrorHandler.getRetryDelay`: `Math.min(1000 * 2^attempt, 16000)`. -/
def getRetryDelay (attempt : Nat) : Nat :=
  min (1000 * 2 ^ attempt) 16000

/-- Observable outcome of a `withRetry` run: the returned value or thrown
error, how many times the operation was invoked, and the delays slept
between invocations (in order). -/
structure RetryTrace (α : Type) where
  result : Except JSError α
  invocations : Nat
  delays : List Nat
deriving Repr

/-- The loop body of `withRetry`, by the number of attempts remaining.
`attempt === maxAttempts - 1` is `remaining = 1`; on a retryable failure with
attempts remaining it sleeps `baseDelay * 2^attempt` (note: no ceiling) and
retries.  The `remaining = 0` case is the unreachable `throw lastError`. -/
def withRetryAux {α : Type} (op : Nat → Except JSError α) (baseDelay : Nat) :
    Nat → Nat → RetryTrace α
  | _, 0 => ⟨.error (.other "lastError"), 0, []⟩
  | attempt, remaining + 1 =>
      match op attempt with
      | .ok v => ⟨.ok v, 1, []⟩
      | .error e =>
          if remaining = 0 || !isRetryableError e then ⟨.error e, 1, []⟩
          else
            let rest := withRetryAux op baseDelay (attempt + 1) remaining
            ⟨rest.result, rest.invocations + 1, baseDelay * 2 ^ attempt :: rest.delays⟩

/-- `withRetry(operation, maxAttempts, baseDelay)` as a trace. -/
def withRetry {α : Type} (op : Nat → Except JSError α) (maxAttempts baseDelay : Nat) :
    RetryTrace α :=
  withRetryAux op baseDelay 0 maxAttempts

/-! ## Validator (`src/utils/validation.ts`) -/

/-- Characters removed by `Validator.sanitizeString`'s regex
`[\x00-\x08\x0B\x0C\x0E-\x1F\x7F]`. -/
def isStrippedControl (c : Char) : Bool :=
  c.toNat ≤ 0x08 || c.toNat = 0x0B || c.toNat = 0x0C ||
  (0x0E ≤ c.toNat && c.toNat ≤ 0x1F) || c.toNat = 0x7F

/-- `Validator.sanitizeString(input, maxLength)`: rejects non-string input and
over-long input, otherwise removes the control characters matched by the
regex (newline `\x0A`, tab `\x09` and carriage return `\x0D` survive). -/
def sanitizeString (input : Json) (maxLength : Nat) : Except MCPErr String :=
  match input with
  | .str s =>
      if maxLength < s.length then
        .error (validationError ("Input too long (max " ++ toString maxLength ++ " characters)"))
      else
        .ok (String.mk (s.data.filter (fun c => !isStrippedControl c)))
  | _ => .error (validationError "Input must be a string")

/-! ## Static model table (`GEMINI_MODELS`) -/

/-- One record of `GEMINI_MODELS`: the `thinking` flag is only present on the
2.5-series entries, hence an `Option` (`'thinking' in info` is presence). -/
structure ModelInfo where
  description : String
  features : List String
  contextWindow : Nat
  thinking : Option Bool
deriving Repr, DecidableEq

/-- The static `GEMINI_MODELS` table, in declaration order. -/
def GEMINI_MODELS : List (String × ModelInfo) :=
  [ ("gemini-2.5-pro",
      ⟨"Most capable thinking model, best for complex reasoning and coding",
        ["thinking", "function_calling", "json_mode", "grounding", "system_instructions"],
        2000000, some true⟩),
    ("gemini-2.5-flash",
      ⟨"Fast thinking model with best price/performance ratio",
        ["thinking", "function_calling", "json_mode", "grounding", "system_instructions"],
        1000000, some true⟩),
    ("gemini-2.5-flash-lite",
      ⟨"Ultra-fast, cost-efficient thinking model for high-throughput tasks",
        ["thinking", "function_calling", "json_mode", "system_instructions"],
        1000000, some true⟩),
    ("gemini-2.0-flash",
      ⟨"Fast, efficient model with 1M context window",
        ["function_calling", "json_mode", "grounding", "system_instructions"],
        1000000, none⟩),
    ("gemini-2.0-flash-lite",
      ⟨"Most cost-efficient model for simple tasks",
        ["function_calling", "json_mode", "system_instructions"],
        1000000, none⟩),
    ("gemini-2.0-pro-experimental",
      ⟨"Experimental model with 2M context, excellent for coding",
        ["function_calling", "json_mode", "grounding", "system_instructions"],
        2000000, none⟩),
    ("gemini-1.5-pro",
      ⟨"Previous generation pro model",
        ["function_calling", "json_mode", "system_instructions"],
        2000000, none⟩),
    ("gemini-1.5-flash",
      ⟨"Previous generation fast model",
        ["function_calling", "json_mode", "system_instructions"],
        1000000, none⟩) ]

/-- Lookup `GEMINI_MODELS[model]`. -/
def lookupModel (name : String) : Option ModelInfo :=
  match GEMINI_MODELS.find? (fun p => p.1 = name) with
  | some p => some p.2
  | none => none

/-! ## Zod schema for `generate_text` (`ToolSchemas.generateText`) -/

/-- `z.string()`. -/
def zString : Json → Except String String
  | .str s => .ok s
  | _ => .error "Expected string"

/-- `z.string().min(1, msg)`. -/
def zNonEmptyString (msg : String) : Json → Except String String
  | .str s => if s.length < 1 then .error msg else .ok s
  | _ => .error "Expected string"

/-- `z.string().min(lo).max(hi)` (used for `conversationId`). -/
def zStringLen (lo hi : Nat) : Json → Except String String
  | .str s =>
      if s.length < lo then .error "String must contain at least 1 character(s)"
      else if hi < s.length then .error "String must contain at most 100 character(s)"
      else .ok s
  | _ => .error "Expected string"

/-- `z.number().min(lo).max(hi)`. -/
def zNumberRange (lo hi : Rat) : Json → Except String Rat
  | .num q =>
      if q < lo then .error "Number too small"
      else if hi < q then .error "Number too big"
      else .ok q
  | _ => .error "Expected number"

/-- `z.boolean()`. -/
def zBoolean : Json → Except String Bool
  | .bool b => .ok b
  | _ => .error "Expected boolean"

/-- `z.enum(options)`. -/
def zEnum (options : List String) : Json → Except String String
  | .str s => if options.contains s then .ok s else .error "Invalid enum value"
  | _ => .error "Expected string"

/-- `z.string().refine(JSON-parses, 'Must be valid JSON')`; the host
`JSON.parse` is passed in as `jsParse`. -/
def zJsonString (jsParse : String → Option Json) : Json → Except String String
  | .str s => match jsParse s with
      | some _ => .ok s
      | none => .error "Must be valid JSON"
  | _ => .error "Expected string"

/-- `z.string().refine(parses to an array, 'Must be valid JSON array')`. -/
def zJsonArrayString (jsParse : String → Option Json) : Json → Except String String
  | .str s => match jsParse s with
      | some (.arr _) => .ok s
      | _ => .error "Must be valid JSON array"
  | _ => .error "Expected string"

/-- `.optional()`: an absent field parses to `none`; a present field must
satisfy the base schema (explicit `null` is not accepted). -/
def zOptional {β : Type} (p : Json → Except String β) :
    Option Json → Except String (Option β)
  | none => .ok none
  | some v => (p v).map some

/-- A required field: absent is the zod `Required` issue. -/
def zRequired {β : Type} (p : Json → Except String β) :
    Option Json → Except String β
  | none => .error "Required"
  | some v => p v

/-- The parsed (validated) arguments of `generate_text`. -/
structure GenerateArgs where
  prompt : String
  model : Option String
  systemInstruction : Option String
  temperature : Option Rat
  maxTokens : Option Rat
  topK : Option Rat
  topP : Option Rat
  jsonMode : Option Bool
  jsonSchema : Option String
  grounding : Option Bool
  safetySettings : Option String
  conversationId : Option String
deriving Repr, DecidableEq

/-- The names accepted by `CommonSchemas.geminiModel`. -/
def geminiModelNames : List String :=
  ["gemini-2.5-pro", "gemini-2.5-flash", "gemini-2.5-flash-lite", "gemini-2.0-flash",
   "gemini-2.0-flash-lite", "gemini-2.0-pro-experimental", "gemini-1.5-pro", "gemini-1.5-flash"]

/-- `issue.path.join('.') + ': ' + issue.message` for one field, empty when
the field parses. -/
def issueOf {β : Type} (path : String) : Except String β → List String
  | .ok _ => []
  | .error m => [path ++ ": " ++ m]

/-- `Validator.validateToolParams(ToolSchemas.generateText, args)`: parses
every field, and on failure throws a `ValidationError` whose message joins
every field's issue with `", "`. -/
def parseGenerateArgs (jsParse : String → Option Json) (args : Option Json) :
    Except MCPErr GenerateArgs :=
  match args with
  | some (.obj fields) =>
      let a := Json.obj fields
      let prompt := zRequired (zNonEmptyString "Prompt is required") (jget a "prompt")
      let model := zOptional (zEnum geminiModelNames) (jget a "model")
      let systemInstruction := zOptional zString (jget a "systemInstruction")
      let temperature := zOptional (zNumberRange 0 2) (jget a "temperature")
      let maxTokens := zOptional (zNumberRange 1 8192) (jget a "maxTokens")
      let topK := zOptional (zNumberRange 1 100) (jget a "topK")
      let topP := zOptional (zNumberRange 0 1) (jget a "topP")
      let jsonMode := zOptional zBoolean (jget a "jsonMode")
      let jsonSchema := zOptional (zJsonString jsParse) (jget a "jsonSchema")
      let grounding := zOptional zBoolean (jget a "grounding")
      let safetySettings := zOptional (zJsonArrayString jsParse) (jget a "safetySettings")
      let conversationId := zOptional (zStringLen 1 100) (jget a "conversationId")
      let parsed : Except String GenerateArgs := do
        pure ⟨← prompt, ← model, ← systemInstruction, ← temperature, ← maxTokens, ← topK,
              ← topP, ← jsonMode, ← jsonSchema, ← grounding, ← safetySettings, ← conversationId⟩
      match parsed with
      | .ok v => .ok v
      | .error _ =>
          let issues :=
            issueOf "prompt" prompt ++ issueOf "model" model ++
            issueOf "systemInstruction" systemInstruction ++ issueOf "temperature" temperature ++
            issueOf "maxTokens" maxTokens ++ issueOf "topK" topK ++ issueOf "topP" topP ++
            issueOf "jsonMode" jsonMode ++ issueOf "jsonSchema" jsonSchema ++
            issueOf "grounding" grounding ++ issueOf "safetySettings" safetySettings ++
            issueOf "conversationId" conversationId
          .error (validationError ("Invalid parameters: " ++ String.intercalate ", " issues))
  | _ => .error (validationError "Invalid parameters: Required")

/-! ## generate_text handler -/

/-- JavaScript `x || d` on an optional number (`0` is falsy, so an explicit
zero falls back to the default). -/
def jsNumOr (v : Option Rat) (d : Rat) : Rat :=
  match v with
  | some q => if q = 0 then d else q
  | none => d

/-- JavaScript `x || d` on an optional string (the empty string is falsy). -/
def jsStrOr (v : Option String) (d : String) : String :=
  match v with
  | some s => if s = "" then d else s
  | none => d

/-- The `generationConfig` object built by `generateText`. -/
structure GenerationConfig where
  temperature : Rat
  maxOutputTokens : Rat
  topK : Rat
  topP : Rat
  responseMimeType : Option String
deriving Repr, DecidableEq

/-- The four unconditional `generationConfig` fields of `generateText`. -/
def baseGenerationConfig (v : GenerateArgs) : GenerationConfig :=
  { temperature := jsNumOr v.temperature 0.7
    maxOutputTokens := jsNumOr v.maxTokens 2048
    topK := jsNumOr v.topK 40
    topP := jsNumOr v.topP 0.95
    responseMimeType := none }

/-- One part of a chat message (text-only: the `generate_text` path only ever
builds text parts). -/
structure MsgPart where
  text : String
deriving Repr, DecidableEq

/-- A `{parts, role}` message of the conversation history. -/
structure ChatMessage where
  parts : List MsgPart
  role : String
deriving Repr, DecidableEq

/-- The request body handed to `genAI.models.generateContent` by
`generateText`.  `responseSchema` and `safetySettings` keep the raw JSON
value; `googleSearchTool` records whether `tools: [{googleSearch: {}}]` was
attached. -/
structure GenRequestBody where
  model : String
  contents : List ChatMessage
  generationConfig : GenerationConfig
  responseSchema : Option Json
  systemInstruction : Option (List MsgPart)
  safetySettings : Option Json
  googleSearchTool : Bool

/-- What `generateText` reads off a `generateContent` result. -/
structure GenResult where
  text : Option String
deriving Repr, DecidableEq

/-- Conversation store: `Map<string, any[]>` as an association list. -/
def ConvMap := List (String × List ChatMessage)

def ConvMap.lookup (m : ConvMap) (key : String) : Option (List ChatMessage) :=
  match List.find? (fun p => p.1 = key) m with
  | some p => some p.2
  | none => none

def ConvMap.set (m : ConvMap) (key : String) (h : List ChatMessage) : ConvMap :=
  match m with
  | [] => [(key, h)]
  | (k, v) :: rest =>
      if k = key then (k, h) :: rest else (k, v) :: ConvMap.set rest key h

/-! ## Responses and handlers -/

/-- The `result` object of a Success response.  Constructors record the data
a claim can observe; static prose bodies (tool descriptors, help text,
resource text) are not spelled out, only which branch produced them. -/
inductive ResultPayload where
  | initializeResult (protocolVersion serverName serverVersion : String)
  | toolsList (toolNames : List String)
  | generateTextResult (text : String) (model : String)
  | toolText (text : String)
  | modelsList (models : List (String × ModelInfo)) (count : Nat) (filter : Json)
  | embedTextResult (model : Json) (dimensions : Nat)
  | resourcesList
  | promptsList
  | resourceRead (uri : String)
  | helpText (topic : Json) (knownTopic : Bool)

/-- A JSON-RPC response: exactly one of `result` / `error` is set by the
constructions below.  `id` is the echoed request id (`none` = `undefined`). -/
structure MCPResponse where
  id : Option Json
  result : Option ResultPayload
  error : Option MCPErr

def successResponse (idv : Option Json) (r : ResultPayload) : MCPResponse :=
  ⟨idv, some r, none⟩

def errorResponse (idv : Option Json) (e : MCPErr) : MCPResponse :=
  ⟨idv, none, some e⟩

/-- Field access on a possibly-`undefined` object. -/
def oget (v : Option Json) (key : String) : Option Json :=
  match v with
  | some j => jget j key
  | none => none

/-- Truthiness of a possibly-`undefined` value. -/
def truthyO : Option Json → Bool
  | some v => truthy v
  | none => false

/-- JavaScript `x || d` on a possibly-`undefined` JSON value. -/
def jsOr (v : Option Json) (d : Json) : Json :=
  match v with
  | some x => if truthy x then x else d
  | none => d

/-- Template-literal rendering `${v}` (non-primitive rendering abridged). -/
def jsTemplate : Option Json → String
  | none => "undefined"
  | some .null => "null"
  | some (.bool b) => if b then "true" else "false"
  | some (.num q) => toString q
  | some (.str s) => s
  | some (.arr _) => "[array]"
  | some (.obj _) => "[object Object]"

/-- The remote Gemini SDK, as the capabilities the handlers invoke.
`analyzeContent` takes the raw model / prompt / imageUrl / imageBase64
values `analyzeImage` forwards; `embedContent` yields
`result.embeddings?.[0]?.values` (`none` = absent). -/
structure Env where
  generateContent : GenRequestBody → Except JSError GenResult
  analyzeContent : Json → Option Json → Option Json → Option Json → Except JSError GenResult
  countTokens : Json → Option Json → Except JSError Rat
  embedContent : Json → Option Json → Except JSError (Option (List Rat))

/-- Everything observable about one `generateText` call: the response, the
request bodies sent to the remote `generateContent`, and the updated
conversation store. -/
structure GenOutcome where
  response : MCPResponse
  sentRequests : List GenRequestBody
  conversations : ConvMap

/-- The `if (validatedArgs.jsonMode)` step of `generateText`: sets the
`responseMimeType`, and parses a truthy `jsonSchema` via
`Validator.validateJSON` (throwing `"Invalid JSON schema format"` when the
host `JSON.parse` rejects it). -/
def applyJsonMode (jsParse : String → Option Json) (v : GenerateArgs) :
    Except MCPErr (GenerationConfig × Option Json) :=
  if v.jsonMode = some true then
    let gc := { baseGenerationConfig v with responseMimeType := some "application/json" }
    match v.jsonSchema with
    | some s =>
        if s ≠ "" then
          match jsParse s with
          | some j => .ok (gc, some j)
          | none => .error (validationError "Invalid JSON schema format")
        else .ok (gc, none)
    | none => .ok (gc, none)
  else .ok (baseGenerationConfig v, none)

/-- The `generateText` tool handler.  Any error thrown inside (parameter
validation, unknown model, bad JSON schema, sanitisation, the remote call)
is caught by its `catch` block, which always answers with code `-32603` and
the error's message. -/
def generateText (genContent : GenRequestBody → Except JSError GenResult)
    (jsParse : String → Option Json) (conversations : ConvMap)
    (idv : Option Json) (rawArgs : Option Json) : GenOutcome :=
  match parseGenerateArgs jsParse rawArgs with
  | .error e => ⟨errorResponse idv ⟨-32603, e.message⟩, [], conversations⟩
  | .ok v =>
    let model := jsStrOr v.model "gemini-2.5-flash"
    match lookupModel model with
    | none => ⟨errorResponse idv ⟨-32603, "Unknown model: " ++ model⟩, [], conversations⟩
    | some modelInfo =>
      match applyJsonMode jsParse v with
      | .error e => ⟨errorResponse idv ⟨-32603, e.message⟩, [], conversations⟩
      | .ok (generationConfig, responseSchema) =>
        match sanitizeString (.str v.prompt) 10000 with
        | .error e => ⟨errorResponse idv ⟨-32603, e.message⟩, [], conversations⟩
        | .ok cleanPrompt =>
          let siStep : Except MCPErr (Option (List MsgPart)) :=
            match v.systemInstruction with
            | some si =>
                if si ≠ "" then
                  match sanitizeString (.str si) 10000 with
                  | .ok cleanSi => .ok (some [⟨cleanSi⟩])
                  | .error e => .error e
                else .ok none
            | none => .ok none
          match siStep with
          | .error e => ⟨errorResponse idv ⟨-32603, e.message⟩, [], conversations⟩
          | .ok systemInstruction =>
            -- safety settings read from the RAW args; a parse failure is swallowed
            let safetySettings : Option Json :=
              match oget rawArgs "safetySettings" with
              | some (.str s) => jsParse s
              | some other => if truthy other then some other else none
              | none => none
            let googleSearchTool :=
              truthyO (oget rawArgs "grounding") && modelInfo.features.contains "grounding"
            let baseContents : List ChatMessage := [⟨[⟨cleanPrompt⟩], "user"⟩]
            let contents : List ChatMessage :=
              match oget rawArgs "conversationId" with
              | some (.str cid) =>
                  if cid ≠ "" then
                    let history := (conversations.lookup cid).getD []
                    if history.length > 0 then history ++ baseContents else baseContents
                  else baseContents
              | _ => baseContents
            let requestBody : GenRequestBody :=
              ⟨model, contents, generationConfig, responseSchema, systemInstruction,
                safetySettings, googleSearchTool⟩
            match genContent requestBody with
            | .error e =>
                ⟨errorResponse idv ⟨-32603, e.message⟩, [requestBody], conversations⟩
            | .ok result =>
                let text := result.text.getD ""
                let conversations' :=
                  match oget rawArgs "conversationId" with
                  | some (.str cid) =>
                      if cid ≠ "" then
                        let history := (conversations.lookup cid).getD []
                        conversations.set cid
                          (history ++ requestBody.contents ++ [⟨[⟨text⟩], "model"⟩])
                      else conversations
                  | _ => conversations
                ⟨successResponse idv (.generateTextResult text model), [requestBody],
                  conversations'⟩

/-- The `analyze_image` tool handler: rejects (inside its own catch, so with
code -32603) when both image sources are missing, before any remote call. -/
def analyzeImage (env : Env) (idv : Option Json) (args : Option Json) : MCPResponse :=
  let model := jsOr (oget args "model") (.str "gemini-2.5-flash")
  if !truthyO (oget args "imageUrl") && !truthyO (oget args "imageBase64") then
    errorResponse idv
      ⟨-32603, "Image analysis failed: Either imageUrl or imageBase64 must be provided"⟩
  else
    match env.analyzeContent model (oget args "prompt") (oget args "imageUrl")
        (oget args "imageBase64") with
    | .ok result => successResponse idv (.toolText (result.text.getD ""))
    | .error e => errorResponse idv ⟨-32603, "Image analysis failed: " ++ e.message⟩

/-- The `count_tokens` tool handler. -/
def countTokens (env : Env) (idv : Option Json) (args : Option Json) : MCPResponse :=
  let model := jsOr (oget args "model") (.str "gemini-2.5-flash")
  match env.countTokens model (oget args "text") with
  | .ok n => successResponse idv (.toolText ("Token count: " ++ toString n))
  | .error e => errorResponse idv ⟨-32603, e.message⟩

/-- JavaScript strict equality of a JSON value against a string literal. -/
def matchesStr : Json → String → Bool
  | .str s, t => s = t
  | _, _ => false

/-- The `switch (filter)` body of `listModels`'s filter callback; its
`default` arm returns `true` (keeps the model). -/
def modelFilterPred (fv : Json) (info : ModelInfo) : Bool :=
  if matchesStr fv "thinking" then info.thinking = some true
  else if matchesStr fv "vision" then info.features.contains "function_calling"
  else if matchesStr fv "grounding" then info.features.contains "grounding"
  else if matchesStr fv "json_mode" then info.features.contains "json_mode"
  else true

/-- The `list_models` tool handler: `args?.filter || 'all'`, then the
capability switch whose `default` arm keeps every model. -/
def listModels (idv : Option Json) (args : Option Json) : MCPResponse :=
  let fv : Json := jsOr (oget args "filter") (.str "all")
  let models :=
    if matchesStr fv "all" then GEMINI_MODELS
    else GEMINI_MODELS.filter (fun p => modelFilterPred fv p.2)
  successResponse idv (.modelsList models models.length fv)

/-- The `embed_text` tool handler. -/
def embedText (env : Env) (idv : Option Json) (args : Option Json) : MCPResponse :=
  let model := jsOr (oget args "model") (.str "text-embedding-004")
  match env.embedContent model (oget args "text") with
  | .ok values => successResponse idv (.embedTextResult model ((values.getD []).length))
  | .error e => errorResponse idv ⟨-32603, e.message⟩

/-- The topics `getHelp` recognises (its `default` yields fallback text). -/
def helpTopics : List String :=
  ["overview", "tools", "models", "parameters", "examples", "quick-start"]

/-- The `get_help` tool handler (help prose elided; its branch recorded). -/
def getHelp (idv : Option Json) (args : Option Json) : MCPResponse :=
  let tv := jsOr (oget args "topic") (.str "overview")
  let known := match tv with | .str s => helpTopics.contains s | _ => false
  successResponse idv (.helpText tv known)

/-- `tools/call` sub-routing on `params.name`. -/
def handleToolCall (env : Env) (jsParse : String → Option Json) (conv : ConvMap)
    (request : Json) : MCPResponse × ConvMap × List GenRequestBody :=
  let idv := jget request "id"
  let params : Json := jsOr (jget request "params") (.obj [])
  let name := jget params "name"
  let args := jget params "arguments"
  match name with
  | some (.str "generate_text") =>
      let o := generateText env.generateContent jsParse conv idv args
      (o.response, o.conversations, o.sentRequests)
  | some (.str "analyze_image") => (analyzeImage env idv args, conv, [])
  | some (.str "count_tokens") => (countTokens env idv args, conv, [])
  | some (.str "list_models") => (listModels idv args, conv, [])
  | some (.str "embed_text") => (embedText env idv args, conv, [])
  | some (.str "get_help") => (getHelp idv args, conv, [])
  | other => (errorResponse idv ⟨-32601, "Unknown tool: " ++ jsTemplate other⟩, conv, [])

/-- The URIs `handleResourceRead` recognises. -/
def resourceUris : List String :=
  ["gemini://models", "gemini://capabilities", "gemini://help/usage",
   "gemini://help/parameters", "gemini://help/examples"]

/-- `resources/read`: missing / falsy `params.uri` and unknown URIs answer
with code -32602. -/
def handleResourceRead (request : Json) : MCPResponse :=
  let idv := jget request "id"
  let uri := oget (jget request "params") "uri"
  if !truthyO uri then
    errorResponse idv ⟨-32602, "Missing required parameter: uri"⟩
  else
    match uri with
    | some (.str s) =>
        if resourceUris.contains s then successResponse idv (.resourceRead s)
        else errorResponse idv ⟨-32602, "Unknown resource: " ++ s⟩
    | other => errorResponse idv ⟨-32602, "Unknown resource: " ++ jsTemplate other⟩

/-- The six static tool descriptors, by name. -/
def toolNames : List String :=
  ["generate_text", "analyze_image", "count_tokens", "list_models", "embed_text", "get_help"]

/-- `handleRequest`: the method switch.  `none` as first component is the
silently-dropped unknown notification (no `id` field); every other branch
produces exactly one response. -/
def handleRequest (env : Env) (jsParse : String → Option Json) (request : Json)
    (conv : ConvMap) : Option MCPResponse × ConvMap × List GenRequestBody :=
  let idv := jget request "id"
  match jget request "method" with
  | some (.str "initialize") =>
      (some (successResponse idv (.initializeResult "2024-11-05" "mcp-server-gemini-enhanced" "4.1.0")),
        conv, [])
  | some (.str "tools/list") => (some (successResponse idv (.toolsList toolNames)), conv, [])
  | some (.str "tools/call") =>
      let (r, c, s) := handleToolCall env jsParse conv request
      (some r, c, s)
  | some (.str "resources/list") => (some (successResponse idv .resourcesList), conv, [])
  | some (.str "resources/read") => (some (handleResourceRead request), conv, [])
  | some (.str "prompts/list") => (some (successResponse idv .promptsList), conv, [])
  | _ =>
      if idv.isNone then (none, conv, [])
      else (some (errorResponse idv ⟨-32601, "Method not found"⟩), conv, [])

/-! ## The per-line pipeline (`setupStdioInterface`'s `line` listener) -/

/-- The `catch` of the line listener: the line re-parses to the same value;
an error response is sent only when `partialRequest.id` is TRUTHY (so id `0`,
`""`, `null` or a missing id send nothing). -/
def catchResponses (line : Json) (e : MCPErr) : List MCPResponse :=
  match jget line "id" with
  | some idv => if truthy idv then [errorResponse (some idv) e] else []
  | none => []

/-- Observable outcome of feeding one (already JSON-parsed) line. -/
structure LineOutcome where
  responses : List MCPResponse
  conversations : ConvMap
  rl : RLState
  sentRequests : List GenRequestBody

/-- One non-empty input line, already parsed: validate the envelope, apply
the rate limiter (key `"default"`), then dispatch; any throw from the first
two steps lands in `catchResponses`. -/
def processLine (env : Env) (jsParse : String → Option Json) (enabled : Bool)
    (maxRequests windowMs now : Nat) (line : Json) (conv : ConvMap) (rl : RLState) :
    LineOutcome :=
  match validateMCPRequest line with
  | .error e => ⟨catchResponses line e, conv, rl, []⟩
  | .ok _ =>
      match checkLimit enabled maxRequests windowMs now "default" rl with
      | .error e => ⟨catchResponses line e, conv, rl, []⟩
      | .ok rl' =>
          let (resp?, conv', sent) := handleRequest env jsParse line conv
          ⟨resp?.toList, conv', rl', sent⟩

/-! # Theorems -/

/-- The `k`-th delay slept by the retry loop is `baseDelay * 2 ^ (attempt₀ + k)`. -/
theorem withRetryAux_delays {α : Type} (op : Nat → Except JSError α) (baseDelay : Nat) :
    ∀ (remaining attempt k d : Nat),
      (withRetryAux op baseDelay attempt remaining).delays.get? k = some d →
      d = baseDelay * 2 ^ (attempt + k) := by
  intro remaining
  induction remaining with
  | zero => intro attempt k d h; simp [withRetryAux] at h
  | succ r ih =>
    intro attempt k d h
    rw [withRetryAux] at h
    cases hop : op attempt with
    | ok v => rw [hop] at h; simp at h
    | error e =>
      rw [hop] at h
      dsimp only at h
      by_cases hc : (decide (r = 0) || !isRetryableError e) = true
      · rw [if_pos hc] at h; simp at h
      · rw [if_neg hc] at h
        simp only [List.get?] at h
        cases k with
        | zero => simp at h; rw [Nat.add_zero]; omega
        | succ k' =>
          simp only [List.get?] at h
          have h3 := ih (attempt + 1) k' d h
          rw [h3]
          have h4 : attempt + 1 + k' = attempt + (k' + 1) := by omega
          rw [h4]

/-- C3 (amended): the delay slept by `withRetry`'s loop before re-invoking
after a retryable failure on attempt `k` is `baseDelay * 2 ^ k` with no
ceiling; only for `baseDelay = 1000` and `k ≤ 4` does it coincide with
`ErrorHandler.getRetryDelay k = min (1000 * 2 ^ k) 16000`. -/
theorem withRetry_loop_delay {α : Type} (op : Nat → Except JSError α)
    (maxAttempts baseDelay k d : Nat)
    (h : (withRetry op maxAttempts baseDelay).delays.get? k = some d) :
    d = baseDelay * 2 ^ k ∧ (baseDelay = 1000 → k ≤ 4 → d = getRetryDelay k) := by
  have h1 := withRetryAux_delays op baseDelay maxAttempts 0 k d h
  rw [Nat.zero_add] at h1
  refine ⟨h1, fun hb hk => ?_⟩
  have h2 : 2 ^ k ≤ 16 := by
    calc 2 ^ k ≤ 2 ^ 4 := Nat.pow_le_pow_right (by norm_num) hk
    _ = 16 := by norm_num
  rw [getRetryDelay, h1, hb, Nat.min_eq_left (by omega)]

/-- C3 counterexample: with retryable failures throughout, the loop sleeps
32000 ms before attempt 6 (0-indexed attempt 5), whereas
`ErrorHandler.getRetryDelay 5 = 16000`: the claimed hard ceiling does not
hold in the loop. -/
theorem withRetry_loop_delay_cex :
    ((withRetry (fun _ => Except.error (JSError.gemini "Error" (some "UNAVAILABLE") none))
        7 1000 : RetryTrace Unit).delays.get? 5 = some 32000)
    ∧ getRetryDelay 5 = 16000 ∧ (32000 : Nat) ≠ 16000 := by
  refine ⟨by decide, by decide, by decide⟩

theorem withRetry_loop_delay_witness :
    (2000 : Nat) = 1000 * 2 ^ 1 ∧ (2000 : Nat) = getRetryDelay 1 := by
  have h : ((withRetry (fun _ => Except.error (JSError.gemini "Error" (some "UNAVAILABLE") none))
      3 1000 : RetryTrace Unit).delays.get? 1 = some 2000) := by decide
  have h2 := withRetry_loop_delay _ 3 1000 1 2000 h
  exact ⟨h2.1, h2.2 rfl (by norm_num)⟩

/-- C6: with `maxAttempts = 3`, an operation failing retryably on its first
two invocations and succeeding on the third returns the success value after
exactly 3 invocations; an operation failing with a non-retryable error is
invoked exactly once and that same error propagates unchanged. -/
theorem withRetry_retryable_behaviour {α : Type} (op op2 : Nat → Except JSError α)
    (e1 e2 e : JSError) (v : α)
    (h0 : op 0 = .error e1) (h1 : op 1 = .error e2) (h2 : op 2 = .ok v)
    (hr1 : isRetryableError e1 = true) (hr2 : isRetryableError e2 = true)
    (g0 : op2 0 = .error e) (gr : isRetryableError e = false) :
    ((withRetry op 3 1000).result = .ok v ∧ (withRetry op 3 1000).invocations = 3)
    ∧ ((withRetry op2 3 1000).result = .error e ∧ (withRetry op2 3 1000).invocations = 1) := by
  constructor
  · simp [withRetry, withRetryAux, h0, h1, h2, hr1, hr2]
  · simp [withRetry, withRetryAux, g0, gr]

theorem withRetry_retryable_behaviour_witness :
    (((withRetry (fun n => if n < 2 then .error (.gemini "boom" (some "UNAVAILABLE") none)
        else .ok 42) 3 1000 : RetryTrace Nat).result = .ok 42)
      ∧ ((withRetry (fun n => if n < 2 then .error (.gemini "boom" (some "UNAVAILABLE") none)
          else .ok 42) 3 1000 : RetryTrace Nat).invocations = 3))
    ∧ (((withRetry (fun _ => .error (.validation "Invalid input")) 3 1000
          : RetryTrace Nat).result = .error (.validation "Invalid input"))
      ∧ ((withRetry (fun _ => .error (.validation "Invalid input")) 3 1000
          : RetryTrace Nat).invocations = 1)) :=
  withRetry_retryable_behaviour
    (fun n => if n < 2 then .error (.gemini "boom" (some "UNAVAILABLE") none) else .ok 42)
    (fun _ => .error (.validation "Invalid input"))
    (.gemini "boom" (some "UNAVAILABLE") none) (.gemini "boom" (some "UNAVAILABLE") none)
    (.validation "Invalid input") 42
    rfl rfl rfl rfl rfl rfl rfl

/-- C7: for string input within `maxLength`, `sanitizeString` keeps the
input's characters in order, removing exactly the characters of the
control-range set (newline and tab are not in it); over-long input and
non-string input raise a `ValidationError` (code -32602); and
`sanitizeString "a\x00b\x01c" = "abc"`. -/
theorem sanitizeString_spec (s big : String) (maxLength : Nat) (v : Json)
    (h : s.length ≤ maxLength) (hbig : maxLength < big.length) (hv : ∀ u, v ≠ .str u) :
    (sanitizeString (.str s) maxLength =
        .ok (String.mk (s.data.filter (fun c => !isStrippedControl c)))
      ∧ (s.data.filter (fun c => !isStrippedControl c)).Sublist s.data
      ∧ (∀ c : Char, c ∈ s.data.filter (fun c => !isStrippedControl c) ↔
          c ∈ s.data ∧ isStrippedControl c = false)
      ∧ isStrippedControl '\n' = false ∧ isStrippedControl '\t' = false
      ∧ (∀ c : Char, isStrippedControl c = true ↔
          (c.toNat ≤ 0x08 ∨ c.toNat = 0x0B ∨ c.toNat = 0x0C ∨
            (0x0E ≤ c.toNat ∧ c.toNat ≤ 0x1F) ∨ c.toNat = 0x7F)))
    ∧ (∃ m, sanitizeString (.str big) maxLength = .error ⟨-32602, m⟩)
    ∧ sanitizeString v maxLength = .error ⟨-32602, "Input must be a string"⟩
    ∧ sanitizeString (.str "a\x00b\x01c") 10000 = .ok "abc" := by
  refine ⟨⟨?_, ?_, ?_, by decide, by decide, ?_⟩, ?_, ?_, by rfl⟩
  · rw [sanitizeString, if_neg (by omega)]
  · exact List.filter_sublist s.data
  · intro c
    simp [List.mem_filter]
  · intro c
    simp only [isStrippedControl, Bool.or_eq_true, Bool.and_eq_true, decide_eq_true_eq]
    omega
  · exact ⟨_, by rw [sanitizeString, if_pos (by omega)]; rfl⟩
  · cases v with
    | str u => exact absurd rfl (hv u)
    | null => rfl
    | bool b => rfl
    | num q => rfl
    | arr xs => rfl
    | obj fs => rfl

theorem sanitizeString_spec_witness :
    (sanitizeString (.str "a") 1 = .ok "a")
    ∧ sanitizeString .null 1 = .error ⟨-32602, "Input must be a string"⟩
    ∧ sanitizeString (.str "a\x00b\x01c") 10000 = .ok "abc" := by
  have h := sanitizeString_spec "a" "xy" 1 .null (by decide) (by decide)
    (fun u => by intro hk; cases hk)
  exact ⟨h.1.1, h.2.2.1, h.2.2.2⟩

/-- C8 counterexample: a message whose `method` is the empty string is
accepted by `validateMCPRequest`, contradicting the claim that it throws for
every method that is not a non-empty string. -/
theorem validateMCPRequest_empty_method_cex :
    validateMCPRequest
      (.obj [("jsonrpc", .str "2.0"), ("method", .str ""), ("id", .num 1)]) = .ok () := by
  rfl

/-- C8 (amended): `validateMCPRequest` accepts a message exactly when it is
an object with `jsonrpc = "2.0"`, a string `method` (the empty string is
accepted), and an `id` that is present and non-null; every other message is
rejected with a `ValidationError`. -/
theorem validateMCPRequest_ok_iff (v : Json) :
    validateMCPRequest v = .ok () ↔
      ((∃ fields, v = .obj fields) ∧ jget v "jsonrpc" = some (.str "2.0")
        ∧ (∃ s, jget v "method" = some (.str s))
        ∧ (∃ w, jget v "id" = some w ∧ w ≠ .null)) := by
  constructor
  · intro h
    unfold validateMCPRequest at h
    split at h
    · cases h
    · split at h
      case _ hj =>
        have hobj : ∃ fields, v = .obj fields := by
          cases v with
          | obj fields => exact ⟨fields, rfl⟩
          | null => simp [jget] at hj
          | bool b => simp [jget] at hj
          | num q => simp [jget] at hj
          | str s => simp [jget] at hj
          | arr xs => simp [jget] at hj
        refine ⟨hobj, hj, ?_⟩
        split at h
        case _ sm hm =>
          refine ⟨⟨sm, hm⟩, ?_⟩
          cases hi : jget v "id" with
          | none => rw [hi] at h; cases h
          | some w =>
            rw [hi] at h
            cases w with
            | null => cases h
            | bool b => exact ⟨.bool b, rfl, fun hk => by cases hk⟩
            | num q => exact ⟨.num q, rfl, fun hk => by cases hk⟩
            | str s => exact ⟨.str s, rfl, fun hk => by cases hk⟩
            | arr xs => exact ⟨.arr xs, rfl, fun hk => by cases hk⟩
            | obj fs => exact ⟨.obj fs, rfl, fun hk => by cases hk⟩
        case _ => cases h
      case _ => cases h
  · rintro ⟨⟨fields, rfl⟩, hj, ⟨sm, hm⟩, ⟨w, hi, hw⟩⟩
    rw [validateMCPRequest.eq_def]
    rw [if_neg (by simp [isObjectLike]), hj, hm, hi]
    cases w with
    | null => exact absurd rfl hw
    | bool b => rfl
    | num q => rfl
    | str s => rfl
    | arr xs => rfl
    | obj fs => rfl

theorem validateMCPRequest_ok_iff_witness :
    validateMCPRequest
      (.obj [("jsonrpc", .str "2.0"), ("method", .str "tools/list"), ("id", .str "7")])
      = .ok () := by
  rw [validateMCPRequest_ok_iff]
  exact ⟨⟨_, rfl⟩, rfl, ⟨"tools/list", rfl⟩, ⟨.str "7", rfl, by intro h; cases h⟩⟩

/-- An unrecognised filter string passes the capability switch's `default`
arm, keeping every model. -/
theorem modelFilterPred_default (f : String)
    (hf : f ∉ (["all", "thinking", "vision", "grounding", "json_mode"] : List String)) :
    ∀ info, modelFilterPred (.str f) info = true := by
  intro info
  simp only [List.mem_cons, List.mem_singleton, not_or] at hf
  obtain ⟨-, h2, h3, h4, h5, -⟩ := hf
  rw [modelFilterPred]
  rw [if_neg (by simp [matchesStr, h2]), if_neg (by simp [matchesStr, h3]),
    if_neg (by simp [matchesStr, h4]), if_neg (by simp [matchesStr, h5])]

/-- C9: `list_models` with filter `"thinking"` returns exactly the table
entries whose record has `thinking = true` (the three 2.5-series models) with
`count` their number; any string filter outside the declared enum yields a
success response (no error) carrying the full table and `count = 8`. -/
theorem listModels_filtering (idv : Option Json) (f : String)
    (hf : f ∉ (["all", "thinking", "vision", "grounding", "json_mode"] : List String)) :
    ((listModels idv (some (.obj [("filter", .str "thinking")]))).result =
        some (.modelsList (GEMINI_MODELS.filter (fun p => p.2.thinking = some true))
          (GEMINI_MODELS.filter (fun p => p.2.thinking = some true)).length (.str "thinking")))
    ∧ ((GEMINI_MODELS.filter (fun p => p.2.thinking = some true)).map Prod.fst =
        ["gemini-2.5-pro", "gemini-2.5-flash", "gemini-2.5-flash-lite"])
    ∧ ((listModels idv (some (.obj [("filter", .str f)]))).result =
        some (.modelsList GEMINI_MODELS GEMINI_MODELS.length
          (if f = "" then .str "all" else .str f)))
    ∧ (listModels idv (some (.obj [("filter", .str f)]))).error = none
    ∧ GEMINI_MODELS.length = 8 := by
  refine ⟨rfl, rfl, ?_, rfl, rfl⟩
  have h1 : f ≠ "all" := by intro hk; exact hf (by simp [hk])
  by_cases h0 : f = ""
  · subst h0; rfl
  · have hfv : jsOr (oget (some (.obj [("filter", .str f)])) "filter") (.str "all") = .str f := by
      simp [jsOr, oget, jget, jget.lookupField, truthy, h0]
    simp only [listModels]
    rw [hfv]
    rw [show matchesStr (.str f) "all" = false by simp [matchesStr, h1]]
    simp only [Bool.false_eq_true, if_false]
    rw [List.filter_eq_self.mpr (fun p _ => modelFilterPred_default f hf p.2)]
    simp [successResponse, h0]

theorem listModels_filtering_witness :
    ((listModels (some (.num 5)) (some (.obj [("filter", .str "thinking")]))).result =
        some (.modelsList (GEMINI_MODELS.filter (fun p => p.2.thinking = some true))
          (GEMINI_MODELS.filter (fun p => p.2.thinking = some true)).length (.str "thinking")))
    ∧ ((listModels (some (.num 5)) (some (.obj [("filter", .str "bogus")]))).result =
        some (.modelsList GEMINI_MODELS GEMINI_MODELS.length (.str "bogus")))
    ∧ (listModels (some (.num 5)) (some (.obj [("filter", .str "bogus")]))).error = none := by
  have h := listModels_filtering (some (.num 5)) "bogus" (by decide)
  refine ⟨h.1, ?_, h.2.2.2.1⟩
  have h3 := h.2.2.1
  rw [if_neg (by decide)] at h3
  exact h3

/-- While inside an open window (every call time below `resetTime`) and with
room left (`count + #calls ≤ maxRequests`), each `checkLimit` call increments
the count and succeeds. -/
theorem runCheckLimits_inside (maxRequests windowMs : Nat) (key : String) :
    ∀ (ts : List Nat) (s : RLState) (c R : Nat),
      s key = some ⟨c, R⟩ → (∀ t ∈ ts, t < R) → c + ts.length ≤ maxRequests →
      ∃ s', runCheckLimits true maxRequests windowMs key s ts = .ok s'
        ∧ s' key = some ⟨c + ts.length, R⟩ := by
  intro ts
  induction ts with
  | nil => intro s c R hs _ _; exact ⟨s, rfl, by simpa using hs⟩
  | cons t ts ih =>
    intro s c R hs hin hcap
    have hstep : checkLimit true maxRequests windowMs t key s =
        .ok (s.set key ⟨c + 1, R⟩) := by
      rw [checkLimit]
      simp only [Bool.not_true, Bool.false_eq_true, if_false, hs]
      rw [if_neg (by have := hin t (by simp); omega),
        if_neg (by simp at hcap ⊢; omega)]
    have hkey : (s.set key ⟨c + 1, R⟩) key = some ⟨c + 1, R⟩ := by
      simp [RLState.set]
    obtain ⟨s', hrun, hs'⟩ := ih (s.set key ⟨c + 1, R⟩) (c + 1) R hkey
      (fun u hu => hin u (by simp [hu])) (by simp at hcap ⊢; omega)
    refine ⟨s', ?_, by rw [hs']; congr 1; simp; omega⟩
    rw [runCheckLimits, hstep]
    simpa using hrun

/-- C5 (amended, `N ≥ 1`): from a fresh key, with rate limiting enabled and
`maxRequests = N ≥ 1`, the first `N` calls inside one window succeed leaving
count `N`; a further call strictly inside the window throws a
`RateLimitError` (code -32002) whose message carries the remaining seconds
until reset, rounded up; and a call at or after the reset time succeeds with
a fresh window of count 1. -/
theorem rateLimiter_window (N window t0 tN tR : Nat) (rest : List Nat) (key : String)
    (s0 : RLState) (hN : 1 ≤ N) (hfresh : s0 key = none) (hlen : rest.length = N - 1)
    (hrest : ∀ t ∈ rest, t < t0 + window) (hN1 : tN < t0 + window)
    (hR : t0 + window ≤ tR) :
    ∃ s1, runCheckLimits true N window key s0 (t0 :: rest) = .ok s1
      ∧ s1 key = some ⟨N, t0 + window⟩
      ∧ checkLimit true N window tN key s1 =
          .error (rateLimitError ("Rate limit exceeded. Try again in " ++
            toString ((t0 + window - tN + 999) / 1000) ++ " seconds."))
      ∧ checkLimit true N window tR key s1 = .ok (s1.set key ⟨1, tR + window⟩)
      ∧ (s1.set key ⟨1, tR + window⟩) key = some ⟨1, tR + window⟩ := by
  have hstep0 : checkLimit true N window t0 key s0 =
      .ok (s0.set key ⟨1, t0 + window⟩) := by
    rw [checkLimit]
    simp [hfresh]
  obtain ⟨s1, hrun, hs1⟩ := runCheckLimits_inside N window key rest
    (s0.set key ⟨1, t0 + window⟩) 1 (t0 + window) (by simp [RLState.set]) hrest
    (by omega)
  have hs1' : s1 key = some ⟨N, t0 + window⟩ := by rw [hs1]; congr 2; omega
  refine ⟨s1, ?_, hs1', ?_, ?_, by simp [RLState.set]⟩
  · rw [runCheckLimits, hstep0]
    simpa using hrun
  · rw [checkLimit]
    simp only [Bool.not_true, Bool.false_eq_true, if_false, hs1']
    rw [if_neg (by omega), if_pos (by omega)]
  · rw [checkLimit]
    simp only [Bool.not_true, Bool.false_eq_true, if_false, hs1']
    rw [if_pos (by omega)]

theorem rateLimiter_window_witness :
    ∃ s1, runCheckLimits true 2 60000 "default" (fun _ => none) [0, 1] = .ok s1
      ∧ s1 "default" = some ⟨2, 60000⟩
      ∧ checkLimit true 2 60000 2 "default" s1 =
          .error (rateLimitError ("Rate limit exceeded. Try again in " ++
            toString ((0 + 60000 - 2 + 999) / 1000) ++ " seconds."))
      ∧ checkLimit true 2 60000 60000 "default" s1 =
          .ok (s1.set "default" ⟨1, 60000 + 60000⟩)
      ∧ (s1.set "default" ⟨1, 60000 + 60000⟩) "default" = some ⟨1, 60000 + 60000⟩ := by
  have h := rateLimiter_window 2 60000 0 2 60000 [1] "default" (fun _ => none)
    (by norm_num) rfl rfl (by simp) (by norm_num) (by norm_num)
  simpa using h

/-- C5 counterexample: with `maxRequests = 0` the claim's `(N+1)`-th-call
clause fails — the very first call for a fresh key succeeds (count 1) instead
of throwing. -/
theorem rateLimiter_zero_max_cex :
    checkLimit true 0 60000 0 "default" (fun _ => none) =
      .ok (RLState.set (fun _ => none) "default" ⟨1, 60000⟩)
    ∧ RLState.set (fun _ => none) "default" ⟨1, 60000⟩ "default" = some ⟨1, 60000⟩ := by
  refine ⟨by rw [checkLimit]; simp, ?_⟩
  simp [RLState.set]

/-- The jsonMode step only touches `responseMimeType`: the sampling fields of
the config it returns are those of `baseGenerationConfig`. -/
theorem applyJsonMode_sampling (jsParse : String → Option Json) (v : GenerateArgs)
    (gc : GenerationConfig) (rs : Option Json)
    (h : applyJsonMode jsParse v = .ok (gc, rs)) :
    gc.temperature = (baseGenerationConfig v).temperature
    ∧ gc.topP = (baseGenerationConfig v).topP := by
  unfold applyJsonMode at h
  split at h
  · split at h
    · split at h
      · split at h
        · simp at h
          obtain ⟨h1, -⟩ := h
          subst h1
          exact ⟨rfl, rfl⟩
        · cases h
      · simp at h
        obtain ⟨h1, -⟩ := h
        subst h1
        exact ⟨rfl, rfl⟩
    · simp at h
      obtain ⟨h1, -⟩ := h
      subst h1
      exact ⟨rfl, rfl⟩
  · simp at h
    obtain ⟨h1, -⟩ := h
    subst h1
    exact ⟨rfl, rfl⟩

/-- C10: an explicit `temperature` of 0 — a schema-valid value — yields a
generation config with temperature 0.7, and an explicit `topP` of 0 yields
topP 0.95; the config equals the one built with the parameters omitted, and
every request body a `generateText` call sends carries those substituted
values. -/
theorem generateText_zero_sampling_defaults (v : GenerateArgs)
    (hT : v.temperature = some 0) (hP : v.topP = some 0) :
    (baseGenerationConfig v).temperature = 0.7 ∧ (baseGenerationConfig v).topP = 0.95
    ∧ baseGenerationConfig v = baseGenerationConfig { v with temperature := none, topP := none }
    ∧ zNumberRange 0 2 (.num 0) = .ok 0 ∧ zNumberRange 0 1 (.num 0) = .ok 0
    ∧ (∀ (genContent : GenRequestBody → Except JSError GenResult)
        (jsParse : String → Option Json) (conv : ConvMap) (idv : Option Json)
        (rawArgs : Option Json),
        parseGenerateArgs jsParse rawArgs = .ok v →
        ∀ req ∈ (generateText genContent jsParse conv idv rawArgs).sentRequests,
          req.generationConfig.temperature = 0.7 ∧ req.generationConfig.topP = 0.95) := by
  have hbaseT : (baseGenerationConfig v).temperature = 0.7 := by
    simp [baseGenerationConfig, jsNumOr, hT]
  have hbaseP : (baseGenerationConfig v).topP = 0.95 := by
    simp [baseGenerationConfig, jsNumOr, hP]
  refine ⟨hbaseT, hbaseP, ?_, rfl, rfl, ?_⟩
  · simp [baseGenerationConfig, jsNumOr, hT, hP]
  · intro genContent jsParse conv idv rawArgs hparse req hreq
    unfold generateText at hreq
    rw [hparse] at hreq
    dsimp only at hreq
    split at hreq
    · simp at hreq
    · split at hreq
      · simp at hreq
      · rename_i gcv rsv happly
        split at hreq
        · simp at hreq
        · split at hreq
          · simp at hreq
          · split at hreq
            · simp at hreq
              subst hreq
              have hs := applyJsonMode_sampling jsParse v gcv rsv happly
              exact ⟨by rw [show GenRequestBody.generationConfig _ = gcv from rfl, hs.1, hbaseT],
                by rw [show GenRequestBody.generationConfig _ = gcv from rfl, hs.2, hbaseP]⟩
            · simp at hreq
              subst hreq
              have hs := applyJsonMode_sampling jsParse v gcv rsv happly
              exact ⟨by rw [show GenRequestBody.generationConfig _ = gcv from rfl, hs.1, hbaseT],
                by rw [show GenRequestBody.generationConfig _ = gcv from rfl, hs.2, hbaseP]⟩

theorem generateText_zero_sampling_defaults_witness :
    ((baseGenerationConfig
        ⟨"hi", none, none, some 0, none, none, some 0, none, none, none, none, none⟩).temperature
      = 0.7)
    ∧ ((baseGenerationConfig
        ⟨"hi", none, none, some 0, none, none, some 0, none, none, none, none, none⟩).topP
      = 0.95)
    ∧ (List.map (fun r => (r.generationConfig.temperature, r.generationConfig.topP))
        (generateText (fun _ => .ok ⟨some "r"⟩) (fun _ => none) [] none
          (some (.obj [("prompt", .str "hi"), ("temperature", .num 0), ("topP", .num 0)]))).sentRequests
      = [(0.7, 0.95)]) := by
  have h := generateText_zero_sampling_defaults
    ⟨"hi", none, none, some 0, none, none, some 0, none, none, none, none, none⟩ rfl rfl
  exact ⟨h.1, h.2.1, by rfl⟩

/-! ## Concrete fixtures for pipeline-level evaluations -/

/-- An environment whose remote calls are never reached in the scenarios
that use it. -/
def stubEnv : Env :=
  ⟨fun _ => .error (.other "unused"), fun _ _ _ _ => .error (.other "unused"),
    fun _ _ => .error (.other "unused"), fun _ _ => .error (.other "unused")⟩

/-- A valid envelope whose id is the (falsy) number 0. -/
def idZeroLine : Json :=
  .obj [("jsonrpc", .str "2.0"), ("id", .num 0), ("method", .str "initialize")]

/-- A rate-limiter state whose default key's window is exhausted
(`count = 1` with `maxRequests = 1`) until t = 50000. -/
def exhaustedRL : RLState := fun k => if k = "default" then some ⟨1, 50000⟩ else none

/-- C1: `idZeroLine` is a valid envelope, yet when the rate limiter rejects
it the server sends zero responses, because the catch path only answers when
`partialRequest.id` is truthy; the same line with the limiter open gets
exactly one response with id 0. -/
theorem rate_limited_id_zero_drops_response :
    validateMCPRequest idZeroLine = .ok ()
    ∧ (processLine stubEnv (fun _ => none) true 1 60000 1000 idZeroLine [] exhaustedRL).responses
      = []
    ∧ (List.map MCPResponse.id
        (processLine stubEnv (fun _ => none) true 1 60000 1000 idZeroLine []
          (fun _ => none)).responses) = [some (.num 0)] :=
  ⟨rfl, rfl, rfl⟩

/-- A remote generate call that always answers with text `"r"`. -/
def replyEnvGen : GenRequestBody → Except JSError GenResult := fun _ => .ok ⟨some "r"⟩

def convArgs1 : Option Json :=
  some (.obj [("prompt", .str "hi"), ("conversationId", .str "c1")])

def convArgs2 : Option Json :=
  some (.obj [("prompt", .str "hi2"), ("conversationId", .str "c1")])

/-- First successful `generate_text` call on conversation `c1`. -/
def convCall1 : GenOutcome := generateText replyEnvGen (fun _ => none) [] (some (.num 1)) convArgs1

/-- Second successful `generate_text` call on conversation `c1`. -/
def convCall2 : GenOutcome :=
  generateText replyEnvGen (fun _ => none) convCall1.conversations (some (.num 2)) convArgs2

/-- C2: after the first call the stored history is the one exchange; the
second call's remote request correctly prepends it; but the history stored
AFTER the second call re-appends the prior history (`history.push(...
requestBody.contents)`), so the first exchange appears twice — not the
claimed one-occurrence-per-exchange store. -/
theorem conversation_history_duplication :
    convCall1.conversations.lookup "c1" =
      some [⟨[⟨"hi"⟩], "user"⟩, ⟨[⟨"r"⟩], "model"⟩]
    ∧ (convCall2.sentRequests.map GenRequestBody.contents) =
      [[⟨[⟨"hi"⟩], "user"⟩, ⟨[⟨"r"⟩], "model"⟩, ⟨[⟨"hi2"⟩], "user"⟩]]
    ∧ convCall2.conversations.lookup "c1" =
      some [⟨[⟨"hi"⟩], "user"⟩, ⟨[⟨"r"⟩], "model"⟩, ⟨[⟨"hi"⟩], "user"⟩, ⟨[⟨"r"⟩], "model"⟩,
        ⟨[⟨"hi2"⟩], "user"⟩, ⟨[⟨"r"⟩], "model"⟩]
    ∧ ([⟨[⟨"hi"⟩], "user"⟩, ⟨[⟨"r"⟩], "model"⟩, ⟨[⟨"hi"⟩], "user"⟩, ⟨[⟨"r"⟩], "model"⟩,
        ⟨[⟨"hi2"⟩], "user"⟩, ⟨[⟨"r"⟩], "model"⟩]
        ≠ ([⟨[⟨"hi"⟩], "user"⟩, ⟨[⟨"r"⟩], "model"⟩, ⟨[⟨"hi2"⟩], "user"⟩, ⟨[⟨"r"⟩], "model"⟩]
          : List ChatMessage)) :=
  ⟨rfl, rfl, rfl, by decide⟩

/-- C4: a `generate_text` call with an empty prompt fails validation with a
`ValidationError` carrying -32602, but the response assembled by
`generateText`'s catch hardcodes -32603; a temperature outside 0–2 gets the
same -32603. -/
theorem validation_error_code_hardcoded :
    parseGenerateArgs (fun _ => none) (some (.obj [("prompt", .str "")])) =
      .error ⟨-32602, "Invalid parameters: prompt: Prompt is required"⟩
    ∧ (generateText replyEnvGen (fun _ => none) [] (some (.num 3))
        (some (.obj [("prompt", .str "")]))).response.error =
      some ⟨-32603, "Invalid parameters: prompt: Prompt is required"⟩
    ∧ ((generateText replyEnvGen (fun _ => none) [] (some (.num 4))
        (some (.obj [("prompt", .str "hi"), ("temperature", .num 3)]))).response.error.map
          MCPErr.code) = some (-32603)
    ∧ ((-32603 : Int) ≠ -32602) :=
  ⟨rfl, rfl, rfl, by decide⟩

end GeminiMCP
